import Mathlib

/-!
Shallow embedding of the etf-tracker acquisition pipeline
(src/scrapers/mcx_scraper.py and src/scrapers/etf_scraper_mcx.py).

Numbers are modelled as exact rationals; Python round(x, n) (round half to
even) is modelled by roundHalfEven.  File, network and browser effects are
modelled by explicit parameters (adapter outcomes, cache ages) and by traces
of adapter invocations and cache writes.
-/

/-- Python round-half-to-even of a rational to an integer: the semantics of
the built-in round applied to an exact value. -/
def roundHalfEven (q : ℚ) : ℤ :=
  let n : ℤ := ⌊q⌋
  if q - n < 1/2 then n
  else if 1/2 < q - n then n + 1
  else if n % 2 = 0 then n else n + 1

/-- Python round(x, 2) on exact rationals. -/
def round2 (q : ℚ) : ℚ := (roundHalfEven (q * 100) : ℚ) / 100

/-- Python round(x, 1) on exact rationals. -/
def round1 (q : ℚ) : ℚ := (roundHalfEven (q * 10) : ℚ) / 10

/-!
Time-window predicates, from mcx_scraper.py lines 47-90.  A wall-clock
instant is (weekday wd : 0 = Monday .. 6 = Sunday, hour h, minute m).
-/

/-- mcx_scraper.is_ibja_requests_only_window (7 AM - 12:30 PM); the source
reads only hour and minute, not the weekday. -/
def is_ibja_requests_only_window (h m : ℕ) : Bool :=
  decide ((h = 7 ∧ 0 ≤ m) ∨ (8 ≤ h ∧ h < 12) ∨ (h = 12 ∧ m < 30))

/-- mcx_scraper.is_ibja_active_window (12:40 PM - 10:00 PM, weekdays only). -/
def is_ibja_active_window (wd h m : ℕ) : Bool :=
  if 5 ≤ wd then false
  else if (h = 12 ∧ 40 ≤ m) ∨ (13 ≤ h ∧ h < 22) then true
  else false

/-- mcx_scraper.is_mcx_active_window (5:00 PM - 7:00 AM next day, and all of
the weekend). -/
def is_mcx_active_window (wd h : ℕ) : Bool :=
  if 5 ≤ wd then true
  else if 17 ≤ h ∨ h < 7 then (if wd < 5 then true else false)
  else false

/-- mcx_scraper.is_dead_zone (12:30 PM - 12:40 PM). -/
def is_dead_zone (h m : ℕ) : Bool :=
  decide (h = 12 ∧ 30 ≤ m ∧ m < 40)

/-- The five routing states of the specification. -/
inductive RouteState
  | PRIMARY_ONLY
  | DEAD_ZONE
  | CASCADE
  | TERTIARY_ONLY
  | OFFLINE
deriving DecidableEq

/-- The tier-selection directive realised by the chain of if-statements in
mcx_scraper.get_mcx_spot_prices (lines 467-527), in source order: dead zone,
then IBJA requests-only, then IBJA active, then MCX active, else offline. -/
def routeState (wd h m : ℕ) : RouteState :=
  if is_dead_zone h m then RouteState.DEAD_ZONE
  else if is_ibja_requests_only_window h m then RouteState.PRIMARY_ONLY
  else if is_ibja_active_window wd h m then RouteState.CASCADE
  else if is_mcx_active_window wd h then RouteState.TERTIARY_ONLY
  else RouteState.OFFLINE

/-!
Spot-price cache freshness, from mcx_scraper.py lines 40, 97-105, 149-174.
The age of the cache entry is passed in as exact seconds since capturedAt;
parse failure of the stored timestamp is the none case.
-/

/-- mcx_scraper.CACHE_VALIDITY_HOURS. -/
def CACHE_VALIDITY_HOURS : ℚ := 2

/-- mcx_scraper.calculate_cache_age: age in hours, rounded to one decimal
place (round(age, 1) in the source). -/
def calculate_cache_age (age_seconds : ℚ) : ℚ :=
  round1 (age_seconds / 3600)

/-- mcx_scraper.is_cache_fresh: false when the cache file is missing or its
timestamp cannot be parsed, otherwise the rounded age is compared against
CACHE_VALIDITY_HOURS. -/
def is_cache_fresh (cache_exists : Bool) (age_seconds : Option ℚ) : Bool :=
  if cache_exists then
    match age_seconds with
    | none => false
    | some s => decide (calculate_cache_age s < CACHE_VALIDITY_HOURS)
  else false

/-!
Static-field cache TTL, from etf_scraper_mcx.py lines 41-43 and 87-101.
-/

/-- etf_scraper_mcx.STATIC_CACHE_TTL, in seconds.  The source expression is
1 * 60 * 60 while the comment beside it says 4 hours. -/
def STATIC_CACHE_TTL : ℕ := 1 * 60 * 60

/-- etf_scraper_mcx.should_refresh_static_cache.  First argument: the loaded
static cache is empty.  Second: none models the CSV read raising (returns
True), some none models a CSV without a timestamp column (falls through to
False), some (some a) is the parsed age in seconds. -/
def should_refresh_static_cache (static_cache_empty : Bool)
    (csv_age : Option (Option ℚ)) : Bool :=
  if static_cache_empty then true
  else
    match csv_age with
    | none => true
    | some none => false
    | some (some a) => if (STATIC_CACHE_TTL : ℚ) < a then true else false

/-!
Trace model of mcx_scraper.get_mcx_spot_prices (lines 453-527).  The three
scraping adapters and the cache file are external effects; an environment
fixes their outcomes for one call.  Each adapter is invoked at most once on
every control path, so an Option per adapter is a faithful oracle.  The
output records the returned record, whether it came from load_cache, the
ordered list of adapter invocations, and the list of save_cache writes.
-/

/-- A spot-price record (the dict built by the scrapers / stored in the
cache): gold_per_gram, silver_per_gram and the source label.  The timestamp
fields are immaterial to the claims and omitted. -/
structure Spot where
  gold_per_gram : ℚ
  silver_per_gram : ℚ
  source : String

/-- The three spot-price source adapters, in cascade order. -/
inductive Adapter
  | IbjaRequests
  | IbjaSelenium
  | McxOfficial
deriving DecidableEq

/-- Environment of one get_mcx_spot_prices call: result of is_cache_fresh,
the record load_cache would return (cached data or the zero fallback), the
outcome of each adapter (none = that scrape fails or finds no data), and the
wall-clock instant. -/
structure SpotEnv where
  cacheFresh : Bool
  cacheVal : Spot
  ibjaRequests : Option Spot
  ibjaSelenium : Option Spot
  mcxOfficial : Option Spot
  wd : ℕ
  h : ℕ
  m : ℕ

/-- Observable outcome of one get_mcx_spot_prices call: the returned record,
whether it was served by load_cache, adapter invocations in order, and
save_cache writes in order. -/
structure SpotOut where
  result : Spot
  fromCache : Bool
  calls : List Adapter
  writes : List Spot

/-- mcx_scraper.get_mcx_spot_prices, lines 453-527: fresh-cache short
circuit, then dead zone, then the IBJA requests-only window, then the IBJA
active window (requests, then Selenium, then MCX when its window overlaps),
then the MCX window, else cache. -/
def get_mcx_spot_prices (env : SpotEnv) : SpotOut :=
  if env.cacheFresh then
    { result := env.cacheVal, fromCache := true, calls := [], writes := [] }
  else if is_dead_zone env.h env.m then
    { result := env.cacheVal, fromCache := true, calls := [], writes := [] }
  else if is_ibja_requests_only_window env.h env.m then
    match env.ibjaRequests with
    | some r => { result := r, fromCache := false, calls := [Adapter.IbjaRequests], writes := [r] }
    | none => { result := env.cacheVal, fromCache := true, calls := [Adapter.IbjaRequests], writes := [] }
  else if is_ibja_active_window env.wd env.h env.m then
    match env.ibjaRequests with
    | some r => { result := r, fromCache := false, calls := [Adapter.IbjaRequests], writes := [r] }
    | none =>
      match env.ibjaSelenium with
      | some r =>
        { result := r, fromCache := false,
          calls := [Adapter.IbjaRequests, Adapter.IbjaSelenium], writes := [r] }
      | none =>
        if is_mcx_active_window env.wd env.h then
          match env.mcxOfficial with
          | some r =>
            { result := r, fromCache := false,
              calls := [Adapter.IbjaRequests, Adapter.IbjaSelenium, Adapter.McxOfficial],
              writes := [r] }
          | none =>
            { result := env.cacheVal, fromCache := true,
              calls := [Adapter.IbjaRequests, Adapter.IbjaSelenium, Adapter.McxOfficial],
              writes := [] }
        else
          { result := env.cacheVal, fromCache := true,
            calls := [Adapter.IbjaRequests, Adapter.IbjaSelenium], writes := [] }
  else if is_mcx_active_window env.wd env.h then
    match env.mcxOfficial with
    | some r => { result := r, fromCache := false, calls := [Adapter.McxOfficial], writes := [r] }
    | none => { result := env.cacheVal, fromCache := true, calls := [Adapter.McxOfficial], writes := [] }
  else
    { result := env.cacheVal, fromCache := true, calls := [], writes := [] }

/-!
The ETF universe, from etf_scraper_mcx.py lines 106-134.  Fields irrelevant
to every claim (dates, volumes, and so on) are omitted throughout; the
gold_per_unit / silver_per_unit keys, present only on the matching asset
class, are Options.
-/

/-- One entry of ETF_DATABASE.  ty is the dict key named type. -/
structure Etf where
  symbol : String
  name : String
  ty : String
  isin : String
  gold_per_unit : Option ℚ
  silver_per_unit : Option ℚ

/-- etf_scraper_mcx.ETF_DATABASE, gold_etfs. -/
def gold_etfs_db : List Etf :=
  [ { symbol := "GOLDBEES", name := "Nippon India Gold BeES", ty := "gold",
      isin := "INF204KB17I5", gold_per_unit := some 0.00869, silver_per_unit := none },
    { symbol := "HDFCGOLD", name := "HDFC Gold ETF", ty := "gold",
      isin := "INF179KB1AK5", gold_per_unit := some 0.0083, silver_per_unit := none },
    { symbol := "SETFGOLD", name := "SBI Gold ETF", ty := "gold",
      isin := "INF200K01LS1", gold_per_unit := some 0.00855, silver_per_unit := none },
    { symbol := "GOLDIETF", name := "ICICI Prudential Gold ETF", ty := "gold",
      isin := "INF109KC16G0", gold_per_unit := some 0.00866, silver_per_unit := none },
    { symbol := "GOLD1", name := "Kotak Gold ETF", ty := "gold",
      isin := "INF174KA13E3", gold_per_unit := some 0.00836, silver_per_unit := none },
    { symbol := "AXISGOLD", name := "Axis Gold ETF", ty := "gold",
      isin := "INF846K01EW8", gold_per_unit := some 0.00844, silver_per_unit := none },
    { symbol := "GOLDSHARE", name := "UTI Gold ETF", ty := "gold",
      isin := "INF789FA1016", gold_per_unit := some 0.00836, silver_per_unit := none },
    { symbol := "BSLGOLDETF", name := "Aditya Birla Gold ETF", ty := "gold",
      isin := "INF209KB11H1", gold_per_unit := some 0.00881, silver_per_unit := none },
    { symbol := "TATAGOLD", name := "Tata Gold ETF", ty := "gold",
      isin := "INF277K01EN5", gold_per_unit := some 0.00096, silver_per_unit := none },
    { symbol := "GOLD360", name := "360 ONE Gold ETF", ty := "gold",
      isin := "INF966L01019", gold_per_unit := some 0.00959, silver_per_unit := none },
    { symbol := "GOLDCASE", name := "Zerodha Gold ETF", ty := "gold",
      isin := "INF174K01021", gold_per_unit := some 0.0016, silver_per_unit := none } ]

/-- etf_scraper_mcx.ETF_DATABASE, silver_etfs. -/
def silver_etfs_db : List Etf :=
  [ { symbol := "SILVERBEES", name := "Nippon India Silver ETF", ty := "silver",
      isin := "INF204KB18I3", gold_per_unit := none, silver_per_unit := some 1 },
    { symbol := "SILVERIETF", name := "ICICI Prudential Silver ETF", ty := "silver",
      isin := "INF109KC17M6", gold_per_unit := none, silver_per_unit := some 1 },
    { symbol := "HDFCSILVER", name := "HDFC Silver ETF", ty := "silver",
      isin := "INF179KB1AL3", gold_per_unit := none, silver_per_unit := some 1 },
    { symbol := "SILVER1", name := "Kotak Silver ETF", ty := "silver",
      isin := "INF174KA14E1", gold_per_unit := none, silver_per_unit := some 1 },
    { symbol := "SBISILVER", name := "SBI Silver ETF", ty := "silver",
      isin := "INF200K01639", gold_per_unit := none, silver_per_unit := some 1 },
    { symbol := "SILVER", name := "Aditya Birla Silver ETF", ty := "silver",
      isin := "INF209KB12H9", gold_per_unit := none, silver_per_unit := some 1 },
    { symbol := "AXISILVER", name := "Axis Silver ETF", ty := "silver",
      isin := "INF846K01FW6", gold_per_unit := none, silver_per_unit := some 1 },
    { symbol := "TATSILV", name := "Tata Silver ETF", ty := "silver",
      isin := "INF277K01FN2", gold_per_unit := none, silver_per_unit := some 0.1 },
    { symbol := "SILVERCASE", name := "Zerodha Silver ETF", ty := "silver",
      isin := "INF174K01039", gold_per_unit := none, silver_per_unit := some 0.1 } ]

/-- etf_scraper_mcx.ETF_LIST = gold_etfs + silver_etfs (line 134). -/
def ETF_LIST : List Etf := gold_etfs_db ++ silver_etfs_db

/-!
Per-instrument fetching, from etf_scraper_mcx.py.  The NSE page fetch is an
external effect: an oracle gives the outcome of each attempt.
-/

/-- etf_scraper_mcx.scrape_etf_fast max_retries (line 436). -/
def max_retries : ℕ := 2

/-- Retry skeleton of etf_scraper_mcx.scrape_etf_fast (lines 432-457, 583-589):
attempt gives, per retry_count, the price the page yielded (none = timeout or
exception).  A non-positive price, a timeout and an exception all re-invoke
the function with retry_count + 1 while retry_count < max_retries, else the
fetch fails with None. -/
def scrape_etf_fast_retry (attempt : ℕ → Option ℚ) (retry_count : ℕ) : Option ℚ :=
  match attempt retry_count with
  | none =>
    if retry_count < max_retries then scrape_etf_fast_retry attempt (retry_count + 1)
    else none
  | some price =>
    if price ≤ 0 then
      (if retry_count < max_retries then scrape_etf_fast_retry attempt (retry_count + 1)
       else none)
    else some price
termination_by max_retries - retry_count
decreasing_by
  all_goals omega

/-- The fields of the dict returned by a successful scrape_etf_fast call that
the claims depend on (price and inav, already rounded by the scraper). -/
structure NseData where
  price : ℚ
  inav : ℚ

/-- One element of the results list built by scrape_etf_batch_parallel: the
merged dict.  In the error case the source dict carries no price or inav key
(a later .get of price then yields 0), modelled by none. -/
structure BatchItem where
  symbol : String
  ty : String
  gold_per_unit : Option ℚ
  silver_per_unit : Option ℚ
  priceOpt : Option ℚ
  inavOpt : Option ℚ
  status : String

/-- Loop body of etf_scraper_mcx.scrape_etf_batch_parallel (lines 691-704):
a successful fetch with positive price merges the etf dict with the NSE data
(whose status is live), otherwise the etf dict is tagged status = error. -/
def process_etf (fetch : Etf → Option NseData) (etf : Etf) : BatchItem :=
  match fetch etf with
  | some nse =>
    if 0 < nse.price then
      { symbol := etf.symbol, ty := etf.ty,
        gold_per_unit := etf.gold_per_unit, silver_per_unit := etf.silver_per_unit,
        priceOpt := some nse.price, inavOpt := some nse.inav, status := "live" }
    else
      { symbol := etf.symbol, ty := etf.ty,
        gold_per_unit := etf.gold_per_unit, silver_per_unit := etf.silver_per_unit,
        priceOpt := none, inavOpt := none, status := "error" }
  | none =>
    { symbol := etf.symbol, ty := etf.ty,
      gold_per_unit := etf.gold_per_unit, silver_per_unit := etf.silver_per_unit,
      priceOpt := none, inavOpt := none, status := "error" }

/-- etf_scraper_mcx.scrape_etf_batch_parallel (lines 682-718): one result per
instrument of the batch; driver_ok = false models the except branch (driver
creation or the loop raising), which returns the empty list. -/
def scrape_etf_batch_parallel (etf_batch : List Etf) (fetch : Etf → Option NseData)
    (driver_ok : Bool) : List BatchItem :=
  if driver_ok then etf_batch.map (process_etf fetch) else []

/-!
Merging, metrics and the final snapshot, from etf_scraper_mcx.py lines
720-857.
-/

/-- The static fields cached per instrument; only prevClose feeds a claimed
computation, the other columns are immaterial and omitted. -/
structure StaticData where
  symbol : String
  prevClose : ℚ

/-- The discount metric as computed at etf_scraper_mcx.py lines 558 and 821:
(price - inav) / inav * 100 when inav > 0, else 0. -/
def discount_metric (price inav : ℚ) : ℚ :=
  if 0 < inav then (price - inav) / inav * 100 else 0

/-- The merged per-instrument output dict of scrape_all_etfs_parallel
(lines 823-834) plus the three fields appended by calculate_mcx_fields;
pass-through fields not used by any claim are omitted. -/
structure InstrumentQuote where
  symbol : String
  ty : String
  gold_per_unit : Option ℚ
  silver_per_unit : Option ℚ
  price : ℚ
  inav : ℚ
  change : ℚ
  changePercent : ℚ
  discount : ℚ
  status : String
  effective_price_per_gram : ℚ
  mcx_spot_per_gram : ℚ
  discount_vs_mcx : ℚ

/-- metal_per_unit as selected by etf_scraper_mcx.calculate_mcx_fields
(line 725): gold_per_unit for gold, silver_per_unit otherwise, defaulting
to 0 when the key is absent. -/
def mcx_metal (etf : InstrumentQuote) : ℚ :=
  if etf.ty = "gold" then etf.gold_per_unit.getD 0 else etf.silver_per_unit.getD 0

/-- ibja_spot as selected by calculate_mcx_fields (line 729). -/
def mcx_spot_for (etf : InstrumentQuote) (mcx_gold mcx_silver : ℚ) : ℚ :=
  if etf.ty = "gold" then mcx_gold else mcx_silver

/-- etf_scraper_mcx.calculate_mcx_fields (lines 720-750): when the relevant
spot price is positive, effective price = price / metal_per_unit (0 when
metal_per_unit is not positive) and the premium versus spot is computed from
the unrounded effective price; when the spot price is not positive both
results are 0.  All three stored fields are rounded to 2 places. -/
def calculate_mcx_fields (etf : InstrumentQuote) (mcx_gold mcx_silver : ℚ) :
    InstrumentQuote :=
  let metal_per_unit := mcx_metal etf
  let price := etf.price
  let ibja_spot := mcx_spot_for etf mcx_gold mcx_silver
  if 0 < ibja_spot then
    let effective_price := if 0 < metal_per_unit then price / metal_per_unit else 0
    let vs_ibja := ((effective_price - ibja_spot) / ibja_spot) * 100
    { etf with effective_price_per_gram := round2 effective_price,
               mcx_spot_per_gram := round2 ibja_spot,
               discount_vs_mcx := round2 vs_ibja }
  else
    { etf with effective_price_per_gram := round2 0,
               mcx_spot_per_gram := round2 ibja_spot,
               discount_vs_mcx := round2 0 }

/-- Body of the merge loop of scrape_all_etfs_parallel (lines 811-836): an
item is combined with the cached static fields and appended only when its
price is positive; change, changePercent and discount are computed with
guarded denominators and rounded, and the combined dict is tagged live. -/
def merge_item (static_cache : String → Option StaticData) (etf_data : BatchItem) :
    Option InstrumentQuote :=
  let static := static_cache etf_data.symbol
  let price := etf_data.priceOpt.getD 0
  if 0 < price then
    let prev_close := (static.map StaticData.prevClose).getD 0
    let inav := etf_data.inavOpt.getD 0
    let change := if 0 < prev_close then price - prev_close else 0
    let change_percent := if 0 < prev_close then change / prev_close * 100 else 0
    let discount := discount_metric price inav
    some { symbol := etf_data.symbol, ty := etf_data.ty,
           gold_per_unit := etf_data.gold_per_unit,
           silver_per_unit := etf_data.silver_per_unit,
           price := price, inav := inav,
           change := round2 change, changePercent := round2 change_percent,
           discount := round2 discount, status := "live",
           effective_price_per_gram := 0, mcx_spot_per_gram := 0,
           discount_vs_mcx := 0 }
  else none

/-- etf_scraper_mcx BATCH_SIZE (line 796). -/
def BATCH_SIZE : ℕ := 5

/-- The batch partition ETF_LIST[i:i+5] for i in range(0, len, 5) (line 799),
written out for the fixed BATCH_SIZE = 5. -/
def chunkList5 {α : Type} : List α → List (List α)
  | [] => []
  | a1 :: a2 :: a3 :: a4 :: a5 :: rest => [a1, a2, a3, a4, a5] :: chunkList5 rest
  | l => [l]

/-- The static-field refresh loop of scrape_all_etfs_parallel (lines 776-790):
the successful scrape_static_fields results are collected and, when the
collection is nonempty, persisted by a single save_static_cache call.  The
second component counts the save_static_cache invocations. -/
def static_refresh (fetchStatic : Etf → Option StaticData) : List StaticData × ℕ :=
  let static_data_list := ETF_LIST.filterMap fetchStatic
  (static_data_list, if static_data_list.isEmpty then 0 else 1)

/-- The final snapshot dict of scrape_all_etfs_parallel (lines 846-853);
mcx_spot_prices and the timestamp are immaterial to the claims and omitted. -/
structure Snapshot where
  gold_etfs : List InstrumentQuote
  silver_etfs : List InstrumentQuote
  success_count : ℕ
  total_count : ℕ

/-- The merge phase of scrape_all_etfs_parallel (lines 803-836): batch results
are flattened and each item with positive price is merged; the others are
skipped.  driver_ok gives each batch the outcome of its worker's try block
(the source keys it by batch index; keying by the batch itself is equivalent
here since driver_ok is arbitrary). -/
def merged_results (fetch : Etf → Option NseData) (driver_ok : List Etf → Bool)
    (static_cache : String → Option StaticData) : List InstrumentQuote :=
  (((chunkList5 ETF_LIST).map
      (fun b => scrape_etf_batch_parallel b fetch (driver_ok b))).flatten).filterMap
    (merge_item static_cache)

/-- etf_scraper_mcx.scrape_all_etfs_parallel (lines 752-857), after the spot
fetch and optional static refresh: the spot values and the static cache in
force are parameters.  calculate_mcx_fields is applied to every merged entry
(lines 840-841), then entries are partitioned by the type key (lines
843-844); success_count counts the merged entries and total_count is
len(ETF_LIST). -/
def scrape_all_etfs_parallel (fetch : Etf → Option NseData)
    (driver_ok : List Etf → Bool) (static_cache : String → Option StaticData)
    (mcx_gold mcx_silver : ℚ) : Snapshot :=
  let all_results := merged_results fetch driver_ok static_cache
  let all_results2 := all_results.map (fun e => calculate_mcx_fields e mcx_gold mcx_silver)
  { gold_etfs := all_results2.filter (fun e => e.ty == "gold"),
    silver_etfs := all_results2.filter (fun e => e.ty == "silver"),
    success_count := all_results.length,
    total_count := ETF_LIST.length }

/-!
Concrete inputs used by witnesses and counterexamples.
-/

/-- A fetch oracle failing exactly on GOLDBEES and succeeding with price 100,
inav 90 on every other instrument. -/
def fetchC1 : Etf → Option NseData :=
  fun e => if e.symbol == "GOLDBEES" then none else some { price := 100, inav := 90 }

/-- The snapshot of a cycle run against fetchC1 with healthy workers, an
empty static cache and spot prices gold 6200, silver 74. -/
def snapC1 : Snapshot :=
  scrape_all_etfs_parallel fetchC1 (fun _ => true) (fun _ => none) 6200 74

/-- A five-instrument batch whose first instrument's fetch fails. -/
def etfW1 : Etf :=
  { symbol := "W1", name := "W1", ty := "gold", isin := "I1",
    gold_per_unit := some 1, silver_per_unit := none }

/-- Companion instrument of the witness batch. -/
def etfW2 : Etf :=
  { symbol := "W2", name := "W2", ty := "gold", isin := "I2",
    gold_per_unit := some 1, silver_per_unit := none }

/-- Companion instrument of the witness batch. -/
def etfW3 : Etf :=
  { symbol := "W3", name := "W3", ty := "gold", isin := "I3",
    gold_per_unit := some 1, silver_per_unit := none }

/-- Companion instrument of the witness batch. -/
def etfW4 : Etf :=
  { symbol := "W4", name := "W4", ty := "silver", isin := "I4",
    gold_per_unit := none, silver_per_unit := some 1 }

/-- Companion instrument of the witness batch. -/
def etfW5 : Etf :=
  { symbol := "W5", name := "W5", ty := "silver", isin := "I5",
    gold_per_unit := none, silver_per_unit := some 1 }

/-- The witness batch of five instruments. -/
def batchW : List Etf := [etfW1, etfW2, etfW3, etfW4, etfW5]

/-- A fetch oracle failing exactly on the first witness instrument. -/
def fetchW : Etf → Option NseData :=
  fun e => if e.symbol == "W1" then none else some { price := 100, inav := 90 }

/-- The instrument of the specification's end-to-end example: price 550,
0.0087 grams of gold per unit. -/
def qX : InstrumentQuote :=
  { symbol := "X", ty := "gold", gold_per_unit := some 0.0087,
    silver_per_unit := none, price := 550, inav := 0, change := 0,
    changePercent := 0, discount := 0, status := "live",
    effective_price_per_gram := 0, mcx_spot_per_gram := 0, discount_vs_mcx := 0 }

/-- The zero fallback cache record. -/
def spotCache0 : Spot :=
  { gold_per_gram := 0, silver_per_gram := 0, source := "Fallback" }

/-- A successful IBJA Selenium outcome. -/
def spotSel : Spot :=
  { gold_per_gram := 6150, silver_per_gram := 74, source := "IBJA (Selenium)" }

/-- A successful MCX outcome. -/
def spotMcx : Spot :=
  { gold_per_gram := 6160, silver_per_gram := 75, source := "MCX_Spot" }

/-- Monday 13:00 in the cascade window, stale cache, IBJA requests failing,
Selenium and MCX both able to succeed. -/
def envC5 : SpotEnv :=
  { cacheFresh := false, cacheVal := spotCache0, ibjaRequests := none,
    ibjaSelenium := some spotSel, mcxOfficial := some spotMcx,
    wd := 0, h := 13, m := 0 }

/-- A static-field fetch oracle that succeeds on every instrument. -/
def fetchStaticAll : Etf → Option StaticData :=
  fun e => some { symbol := e.symbol, prevClose := 100 }

/-- A cached spot record. -/
def spotCached : Spot :=
  { gold_per_gram := 6100, silver_per_gram := 73, source := "IBJA (Requests)" }

/-- A live IBJA requests outcome. -/
def spotReq : Spot :=
  { gold_per_gram := 6190, silver_per_gram := 74, source := "IBJA (Requests)" }

/-- Monday 13:00 with a fresh cache and all three adapters able to succeed. -/
def envC9 : SpotEnv :=
  { cacheFresh := true, cacheVal := spotCached, ibjaRequests := some spotReq,
    ibjaSelenium := some spotSel, mcxOfficial := some spotMcx,
    wd := 0, h := 13, m := 0 }

/-- A fetch oracle succeeding on every instrument with price 100, inav 90. -/
def fetchC10 : Etf → Option NseData :=
  fun _ => some { price := 100, inav := 90 }

/-!
Helper lemmas.
-/

/-- roundHalfEven evaluates to the floor when the fractional part is below
one half. -/
theorem roundHalfEven_eq_low (x : ℚ) (n : ℤ) (h1 : (n : ℚ) ≤ x)
    (h2 : x < (n : ℚ) + 1/2) : roundHalfEven x = n := by
  have hn : ⌊x⌋ = n := Int.floor_eq_iff.mpr ⟨h1, by linarith⟩
  simp only [roundHalfEven, hn]
  rw [if_pos (by linarith : x - (n : ℚ) < 1/2)]

/-- roundHalfEven evaluates to the floor plus one when the fractional part
exceeds one half. -/
theorem roundHalfEven_eq_high (x : ℚ) (n : ℤ) (h1 : (n : ℚ) + 1/2 < x)
    (h2 : x < (n : ℚ) + 1) : roundHalfEven x = n + 1 := by
  have hn : ⌊x⌋ = n := Int.floor_eq_iff.mpr ⟨by linarith, by linarith⟩
  simp only [roundHalfEven, hn]
  rw [if_neg (by linarith : ¬ x - (n : ℚ) < 1/2),
      if_pos (by linarith : (1:ℚ)/2 < x - (n : ℚ))]

/-- round2 of zero is zero. -/
theorem round2_zero : round2 0 = 0 := by
  unfold round2
  rw [show (0:ℚ) * 100 = ((0:ℤ) : ℚ) by norm_num,
      roundHalfEven_eq_low _ 0 (by norm_num) (by norm_num)]
  norm_num

/-- roundHalfEven is below 20 exactly on rationals below 19.5 (the half-to-
even tie at 19.5 rounds up to the even 20). -/
theorem roundHalfEven_lt_twenty (x : ℚ) : roundHalfEven x < 20 ↔ x < 39/2 := by
  have h1 : (⌊x⌋ : ℚ) ≤ x := Int.floor_le x
  have h2 : x < ⌊x⌋ + 1 := Int.lt_floor_add_one x
  simp only [roundHalfEven]
  split_ifs with ha hb hc
  · constructor
    · intro h
      have h3 : (⌊x⌋ : ℚ) ≤ 19 := by exact_mod_cast Int.lt_add_one_iff.mp h
      linarith
    · intro h
      have h3 : (2 * ⌊x⌋ : ℚ) < 39 := by linarith
      have h4 : 2 * ⌊x⌋ < 39 := by exact_mod_cast h3
      omega
  · constructor
    · intro h
      have h3 : (⌊x⌋ : ℚ) ≤ 18 := by exact_mod_cast by omega
      linarith
    · intro h
      have h3 : (⌊x⌋ : ℚ) < 19 := by linarith
      have h4 : ⌊x⌋ < 19 := by exact_mod_cast h3
      omega
  · have hx : x = ⌊x⌋ + 1/2 := by push_cast at ha hb ⊢; linarith
    constructor
    · intro h
      have h3 : ⌊x⌋ ≤ 18 := by omega
      have h4 : (⌊x⌋ : ℚ) ≤ 18 := by exact_mod_cast h3
      rw [hx]; linarith
    · intro h
      rw [hx] at h
      have h3 : (⌊x⌋ : ℚ) < 19 := by linarith
      have h4 : ⌊x⌋ < 19 := by exact_mod_cast h3
      omega
  · have hx : x = ⌊x⌋ + 1/2 := by push_cast at ha hb ⊢; linarith
    constructor
    · intro h
      have h3 : (⌊x⌋ : ℚ) ≤ 18 := by exact_mod_cast by omega
      rw [hx]; linarith
    · intro h
      rw [hx] at h
      have h3 : (⌊x⌋ : ℚ) < 19 := by linarith
      have h4 : ⌊x⌋ < 19 := by exact_mod_cast h3
      omega

/-- The rounded cache age is below 2 hours exactly on ages below 7020
seconds (1.95 hours). -/
theorem calculate_cache_age_lt_two (s : ℚ) :
    calculate_cache_age s < 2 ↔ s < 7020 := by
  unfold calculate_cache_age round1
  rw [div_lt_iff₀ (by norm_num : (0:ℚ) < 10)]
  constructor
  · intro h
    have h2 : roundHalfEven (s / 3600 * 10) < 20 := by exact_mod_cast h
    have h3 := (roundHalfEven_lt_twenty (s / 3600 * 10)).mp h2
    linarith
  · intro h
    have h3 : s / 3600 * 10 < 39/2 := by linarith
    have h2 := (roundHalfEven_lt_twenty (s / 3600 * 10)).mpr h3
    exact_mod_cast h2

/-!
Claim C2.
-/

/-- C2, counterexample: the window predicates of the source are not mutually
exclusive.  Monday (weekday 0) at 17:00 satisfies both the IBJA active
window and the MCX active window, refuting that no instant satisfies two of
the window predicates at once. -/
theorem C2_counterexample :
    is_ibja_active_window 0 17 0 = true ∧ is_mcx_active_window 0 17 = true := by
  decide

/-- C2, amended: the routing realised by get_mcx_spot_prices is total and
assigns every instant exactly one of the five states, by first-match
priority dead zone, primary-only, cascade, tertiary-only, offline; the
underlying window predicates themselves overlap.  Each state is
characterised exactly by its guard together with the negation of the
earlier guards, so no instant is assigned two states. -/
theorem C2_amended (wd h m : ℕ) :
    (routeState wd h m = RouteState.DEAD_ZONE ↔ is_dead_zone h m = true) ∧
    (routeState wd h m = RouteState.PRIMARY_ONLY ↔
      (is_dead_zone h m = false ∧ is_ibja_requests_only_window h m = true)) ∧
    (routeState wd h m = RouteState.CASCADE ↔
      (is_dead_zone h m = false ∧ is_ibja_requests_only_window h m = false ∧
       is_ibja_active_window wd h m = true)) ∧
    (routeState wd h m = RouteState.TERTIARY_ONLY ↔
      (is_dead_zone h m = false ∧ is_ibja_requests_only_window h m = false ∧
       is_ibja_active_window wd h m = false ∧ is_mcx_active_window wd h = true)) ∧
    (routeState wd h m = RouteState.OFFLINE ↔
      (is_dead_zone h m = false ∧ is_ibja_requests_only_window h m = false ∧
       is_ibja_active_window wd h m = false ∧ is_mcx_active_window wd h = false)) := by
  unfold routeState
  cases hd : is_dead_zone h m <;> cases hp : is_ibja_requests_only_window h m <;>
    cases ha : is_ibja_active_window wd h m <;> cases hq : is_mcx_active_window wd h <;>
    simp

/-- C2, witness: the boundary minute 12:30 on a Monday is assigned the dead
zone and only the dead zone. -/
theorem C2_witness :
    routeState 0 12 30 = RouteState.DEAD_ZONE ↔ is_dead_zone 12 30 = true :=
  (C2_amended 0 12 30).1

/-!
Claim C4.
-/

/-- C4, counterexample: an entry aged 7056 seconds (1.96 hours, strictly
below the 2-hour TTL of 7200 seconds) is reported stale, because the source
compares the age rounded to one decimal hour (here 2.0) with the TTL. -/
theorem C4_counterexample :
    is_cache_fresh true (some 7056) = false ∧ (7056 : ℚ) < 2 * 3600 := by
  constructor
  · have hage : calculate_cache_age 7056 = 2 := by
      unfold calculate_cache_age round1
      rw [roundHalfEven_eq_high (7056 / 3600 * 10) 19 (by norm_num) (by norm_num)]
      norm_num
    simp [is_cache_fresh, hage, CACHE_VALIDITY_HOURS]
  · norm_num

/-- C4, amended: for an existing cache entry with a parseable timestamp,
isFresh is true exactly when the age is below 7020 seconds (1.95 hours),
the exact threshold induced by comparing the age rounded to one decimal
hour against the 2-hour TTL; ages in [7020, 7200) are reported stale even
though they are below the TTL.  The claim's own example, age 121 minutes =
7260 seconds, is stale as stated. -/
theorem C4_amended (s : ℚ) :
    (is_cache_fresh true (some s) = true ↔ s < 7020) ∧
    is_cache_fresh true (some 7260) = false := by
  constructor
  · simp only [is_cache_fresh, if_true, decide_eq_true_eq, CACHE_VALIDITY_HOURS]
    exact calculate_cache_age_lt_two s
  · simp only [is_cache_fresh, if_true, CACHE_VALIDITY_HOURS]
    rw [decide_eq_false_iff_not, not_lt]
    have h := (calculate_cache_age_lt_two 7260).not
    push_neg at h
    exact h.mpr (by norm_num)

/-- C4, witness: an entry aged 3600 seconds (1 hour) is fresh. -/
theorem C4_witness : is_cache_fresh true (some 3600) = true :=
  (C4_amended 3600).1.mpr (by norm_num)

/-!
Claim C7.
-/

/-- C7: the static-field cache TTL in the code is 1 * 60 * 60 = 3600 seconds
(one hour), although the comment beside it and the expiry log message both
say 4 hours; it is shorter than, not longer than, the 2-hour spot TTL, and a
static cache aged 2 hours is already refreshed. -/
theorem C7_static_ttl_bug :
    STATIC_CACHE_TTL = 3600 ∧
    STATIC_CACHE_TTL < 4 * 60 * 60 ∧
    (STATIC_CACHE_TTL : ℚ) < CACHE_VALIDITY_HOURS * 3600 ∧
    should_refresh_static_cache false (some (some 7200)) = true := by
  refine ⟨rfl, by norm_num [STATIC_CACHE_TTL], ?_, ?_⟩
  · norm_num [STATIC_CACHE_TTL, CACHE_VALIDITY_HOURS]
  · simp only [should_refresh_static_cache, STATIC_CACHE_TTL]
    norm_num

/-- round2 evaluates through the floor when the scaled fractional part is
below one half. -/
theorem round2_eq_low (q : ℚ) (n : ℤ) (h1 : (n : ℚ) ≤ q * 100)
    (h2 : q * 100 < (n : ℚ) + 1/2) : round2 q = (n : ℚ) / 100 := by
  unfold round2
  rw [roundHalfEven_eq_low _ n h1 h2]

/-- round2 evaluates through the floor plus one when the scaled fractional
part exceeds one half. -/
theorem round2_eq_high (q : ℚ) (n : ℤ) (h1 : (n : ℚ) + 1/2 < q * 100)
    (h2 : q * 100 < (n : ℚ) + 1) : round2 q = ((n : ℚ) + 1) / 100 := by
  unfold round2
  rw [roundHalfEven_eq_high _ n h1 h2]
  push_cast
  ring

/-!
Claim C9.
-/

/-- C9: whenever is_cache_fresh reports the spot cache fresh,
get_mcx_spot_prices returns the load_cache record with no adapter
invocation and no write, regardless of the time window: the cache is
consulted before any routing or scraping. -/
theorem C9_cache_first (env : SpotEnv) (h : env.cacheFresh = true) :
    get_mcx_spot_prices env =
      { result := env.cacheVal, fromCache := true, calls := [], writes := [] } := by
  simp [get_mcx_spot_prices, h]

/-- C9, witness: Monday 13:00 (a window in which every adapter could
succeed) with a fresh cache still returns the cached record and invokes no
adapter. -/
theorem C9_witness :
    get_mcx_spot_prices envC9 =
      { result := envC9.cacheVal, fromCache := true, calls := [], writes := [] } :=
  C9_cache_first envC9 rfl

/-!
Claim C5.
-/

/-- C5, counterexample: in the cascade window with a stale cache, when the
first adapter (IBJA requests) fails, it is invoked exactly once - not
retried twice more - before the chain advances to Selenium. -/
theorem C5_counterexample :
    (get_mcx_spot_prices envC5).calls.count Adapter.IbjaRequests = 1 ∧
    (get_mcx_spot_prices envC5).calls = [Adapter.IbjaRequests, Adapter.IbjaSelenium] ∧
    (get_mcx_spot_prices envC5).result = spotSel := by
  refine ⟨rfl, rfl, rfl⟩

/-- C5, amended: in the spot cascade the candidates are invoked strictly in
order and each at most once (no per-adapter retries: a failing adapter is
abandoned immediately), and no later tier runs after an earlier one
succeeds - with requests failing and Selenium succeeding, the calls are
exactly requests then Selenium and MCX is never invoked.  Only the
per-instrument NSE fetch retries itself, up to max_retries = 2 extra
attempts: after two failed attempts a third successful attempt is returned,
and after three failed attempts the fetch gives up. -/
theorem C5_amended (env : SpotEnv) (r : Spot)
    (hf : env.cacheFresh = false) (hd : is_dead_zone env.h env.m = false)
    (hp : is_ibja_requests_only_window env.h env.m = false)
    (ha : is_ibja_active_window env.wd env.h env.m = true)
    (h1 : env.ibjaRequests = none) (h2 : env.ibjaSelenium = some r) :
    ((get_mcx_spot_prices env).result = r ∧
     (get_mcx_spot_prices env).calls = [Adapter.IbjaRequests, Adapter.IbjaSelenium] ∧
     (get_mcx_spot_prices env).calls.count Adapter.McxOfficial = 0) ∧
    (∀ (attempt : ℕ → Option ℚ) (p : ℚ), attempt 0 = none → attempt 1 = none →
      attempt 2 = some p → 0 < p → scrape_etf_fast_retry attempt 0 = some p) ∧
    (∀ attempt : ℕ → Option ℚ, attempt 0 = none → attempt 1 = none →
      attempt 2 = none → scrape_etf_fast_retry attempt 0 = none) := by
  refine ⟨?_, ?_, ?_⟩
  · simp [get_mcx_spot_prices, hf, hd, hp, ha, h1, h2]
  · intro attempt p a0 a1 a2 hp2
    simp [scrape_etf_fast_retry, a0, a1, a2, max_retries, not_le.mpr hp2]
  · intro attempt a0 a1 a2
    simp [scrape_etf_fast_retry, a0, a1, a2, max_retries]

/-- C5, witness: the cascade conclusions at the concrete environment envC5
(Monday 13:00, stale cache, requests failing, Selenium succeeding). -/
theorem C5_witness :
    ((get_mcx_spot_prices envC5).result = spotSel ∧
     (get_mcx_spot_prices envC5).calls = [Adapter.IbjaRequests, Adapter.IbjaSelenium] ∧
     (get_mcx_spot_prices envC5).calls.count Adapter.McxOfficial = 0) ∧
    (∀ (attempt : ℕ → Option ℚ) (p : ℚ), attempt 0 = none → attempt 1 = none →
      attempt 2 = some p → 0 < p → scrape_etf_fast_retry attempt 0 = some p) ∧
    (∀ attempt : ℕ → Option ℚ, attempt 0 = none → attempt 1 = none →
      attempt 2 = none → scrape_etf_fast_retry attempt 0 = none) :=
  C5_amended envC5 spotSel rfl (by decide) (by decide) (by decide) rfl rfl

/-!
Claim C6.
-/

/-- C6, counterexample: with all 20 static-field fetches succeeding, the
refresh loop performs a single save_static_cache write, not one fresh write
per successful fetch. -/
theorem C6_counterexample :
    (static_refresh fetchStaticAll).1.length = 20 ∧
    (static_refresh fetchStaticAll).2 = 1 ∧
    (static_refresh fetchStaticAll).2 ≠ (static_refresh fetchStaticAll).1.length := by
  refine ⟨rfl, rfl, by decide⟩

set_option maxHeartbeats 1600000 in
/-- C6, amended: every successful spot-price fetch is immediately followed
by exactly one save_cache write of the fetched record, and cache-served
outcomes write nothing - the writes trace is [result] exactly when the
result did not come from the cache; the per-instrument static fields, by
contrast, are persisted by at most one batched save_static_cache call per
refresh, regardless of the number of successful fetches. -/
theorem C6_amended (env : SpotEnv) :
    (get_mcx_spot_prices env).writes =
      (if (get_mcx_spot_prices env).fromCache then []
       else [(get_mcx_spot_prices env).result]) ∧
    (∀ fetchStatic : Etf → Option StaticData, (static_refresh fetchStatic).2 ≤ 1) := by
  constructor
  · obtain ⟨cf, cv, ir, isel, mo, wd, h, m⟩ := env
    cases cf <;> cases ir <;> cases isel <;> cases mo <;>
      simp only [get_mcx_spot_prices] <;> split_ifs <;> first | rfl | simp_all
  · intro fetchStatic
    unfold static_refresh
    dsimp only
    split_ifs <;> omega

/-!
Claim C3.
-/

/-- C3, counterexample: with metalPerUnit = 0.0087 > 0 and price = 550 but a
zero spot price, calculate_mcx_fields stores 0 as the effective price per
gram instead of price / metalPerUnit = 63218.39: the effective price does
depend on the spot price. -/
theorem C3_counterexample :
    0 < mcx_metal qX ∧
    (calculate_mcx_fields qX 0 0).effective_price_per_gram = 0 ∧
    round2 (qX.price / mcx_metal qX) = 63218.39 ∧
    (calculate_mcx_fields qX 0 0).effective_price_per_gram ≠
      round2 (qX.price / mcx_metal qX) := by
  have hm : mcx_metal qX = 87/10000 := by norm_num [mcx_metal, qX]
  have hp : qX.price = 550 := rfl
  have hval : round2 (qX.price / mcx_metal qX) = 63218.39 := by
    rw [hp, hm, round2_eq_low _ 6321839 (by norm_num) (by norm_num)]
    norm_num
  have hzero : (calculate_mcx_fields qX 0 0).effective_price_per_gram = 0 := by
    have hs : mcx_spot_for qX 0 0 = 0 := by norm_num [mcx_spot_for, qX]
    simp only [calculate_mcx_fields]
    rw [if_neg (by rw [hs]; exact lt_irrefl 0)]
    exact round2_zero
  refine ⟨by rw [hm]; norm_num, hzero, hval, ?_⟩
  rw [hzero, hval]
  norm_num

/-- C3, amended: the effective price per unit mass equals
round2 (price / metalPerUnit) whenever metalPerUnit > 0 AND the relevant
spot price is positive, and in that case the premium versus spot is
round2 of ((price / metalPerUnit - spot) / spot * 100) computed from the
unrounded effective price; whenever the relevant spot price is not
positive, the stored effective price is 0 even if metalPerUnit > 0. -/
theorem C3_amended (q : InstrumentQuote) (g s : ℚ)
    (hm : 0 < mcx_metal q) (hs : 0 < mcx_spot_for q g s) :
    ((calculate_mcx_fields q g s).effective_price_per_gram =
       round2 (q.price / mcx_metal q) ∧
     (calculate_mcx_fields q g s).discount_vs_mcx =
       round2 ((q.price / mcx_metal q - mcx_spot_for q g s) /
         mcx_spot_for q g s * 100)) ∧
    (∀ g2 s2 : ℚ, mcx_spot_for q g2 s2 ≤ 0 →
      (calculate_mcx_fields q g2 s2).effective_price_per_gram = 0) := by
  constructor
  · simp only [calculate_mcx_fields]
    rw [if_pos hs, if_pos hm]
    exact ⟨rfl, rfl⟩
  · intro g2 s2 hle
    simp only [calculate_mcx_fields]
    rw [if_neg (not_lt.mpr hle)]
    exact round2_zero

/-- C3, witness: the specification's end-to-end example - price 550,
metalPerUnit 0.0087, gold spot 6200 - yields effective price 63218.39 and
discount versus spot 919.65. -/
theorem C3_witness :
    (calculate_mcx_fields qX 6200 74).effective_price_per_gram = 63218.39 ∧
    (calculate_mcx_fields qX 6200 74).discount_vs_mcx = 919.65 := by
  have hm : mcx_metal qX = 87/10000 := by norm_num [mcx_metal, qX]
  have hs : mcx_spot_for qX 6200 74 = 6200 := by norm_num [mcx_spot_for, qX]
  have hp : qX.price = 550 := rfl
  have h := C3_amended qX 6200 74 (by rw [hm]; norm_num) (by rw [hs]; norm_num)
  constructor
  · rw [h.1.1, hp, hm, round2_eq_low _ 6321839 (by norm_num) (by norm_num)]
    norm_num
  · rw [h.1.2, hp, hm, hs, round2_eq_low _ 91965 (by norm_num) (by norm_num)]
    norm_num

/-!
Claim C8.
-/

/-- C8: the discount metric is (price - inav) / inav * 100 when inav > 0 and
0 when inav ≤ 0, stored rounded to two places; every merged snapshot entry
carries exactly round2 of this metric; and the two concrete examples:
price 310, inav 0 gives 0 and price 310, inav 300 gives 3.33. -/
theorem C8_discount_guarded (price inav : ℚ) :
    (0 < inav → discount_metric price inav = (price - inav) / inav * 100) ∧
    (inav ≤ 0 → round2 (discount_metric price inav) = 0) ∧
    (∀ (sc : String → Option StaticData) (d : BatchItem) (q : InstrumentQuote),
      merge_item sc d = some q →
      q.discount = round2 (discount_metric (d.priceOpt.getD 0) (d.inavOpt.getD 0))) ∧
    round2 (discount_metric 310 0) = 0 ∧
    round2 (discount_metric 310 300) = 3.33 := by
  refine ⟨?_, ?_, ?_, ?_, ?_⟩
  · intro h
    rw [discount_metric, if_pos h]
  · intro h
    rw [discount_metric, if_neg (not_lt.mpr h)]
    exact round2_zero
  · intro sc d q h
    simp only [merge_item] at h
    by_cases hp : 0 < d.priceOpt.getD 0
    · rw [if_pos hp] at h
      injection h with h2
      subst h2
      rfl
    · rw [if_neg hp] at h
      exact absurd h (by simp)
  · rw [discount_metric, if_neg (by norm_num)]
    exact round2_zero
  · rw [discount_metric, if_pos (by norm_num)]
    rw [round2_eq_low _ 333 (by norm_num) (by norm_num)]
    norm_num

/-- C8, witness: the guarded formula applied at price 310, inav 300. -/
theorem C8_witness : discount_metric 310 300 = (310 - 300) / 300 * 100 :=
  (C8_discount_guarded 310 300).1 (by norm_num)

/-!
Claim C1.
-/

/-- C1, counterexample: a full cycle against fetchC1 (exactly one of the 20
instruments, GOLDBEES, failing) produces a final snapshot with 19 entries,
none of them with status error and none for GOLDBEES: the failed instrument
is dropped from the snapshot instead of being emitted with status error. -/
theorem C1_counterexample :
    snapC1.total_count = 20 ∧
    snapC1.gold_etfs.length + snapC1.silver_etfs.length = 19 ∧
    (∀ q ∈ snapC1.gold_etfs ++ snapC1.silver_etfs, q.status ≠ "error") ∧
    (∀ q ∈ snapC1.gold_etfs ++ snapC1.silver_etfs, q.symbol ≠ "GOLDBEES") := by
  refine ⟨rfl, rfl, by decide, by decide⟩

/-- C1, amended: each batch emits one result per instrument of the batch and
a failing instrument appears among the batch results with status error (a
batch of 5 with 1 failing instrument yields 5 results: 1 error, 4 live);
but the final snapshot then keeps only the entries whose fetch succeeded
with positive price - the merge step maps every error entry to none, so
failed instruments are dropped from the final snapshot. -/
theorem C1_amended (batch : List Etf) (fetch : Etf → Option NseData)
    (sc : String → Option StaticData) (etf : Etf) (hmem : etf ∈ batch)
    (hfail : fetch etf = none) :
    (scrape_etf_batch_parallel batch fetch true).length = batch.length ∧
    process_etf fetch etf ∈ scrape_etf_batch_parallel batch fetch true ∧
    (process_etf fetch etf).status = "error" ∧
    merge_item sc (process_etf fetch etf) = none := by
  refine ⟨?_, ?_, ?_, ?_⟩
  · simp [scrape_etf_batch_parallel]
  · simp only [scrape_etf_batch_parallel, if_true]
    exact List.mem_map_of_mem _ hmem
  · simp [process_etf, hfail]
  · simp [merge_item, process_etf, hfail]

/-- C1, witness: the five-instrument witness batch with its first
instrument failing gives 5 batch results, the failing one tagged error, and
the merge step drops that entry. -/
theorem C1_witness :
    (scrape_etf_batch_parallel batchW fetchW true).length = batchW.length ∧
    process_etf fetchW etfW1 ∈ scrape_etf_batch_parallel batchW fetchW true ∧
    (process_etf fetchW etfW1).status = "error" ∧
    merge_item (fun _ => none) (process_etf fetchW etfW1) = none :=
  C1_amended batchW fetchW (fun _ => none) etfW1 (by simp [batchW]) rfl

/-!
Claim C10 and its plumbing.
-/

/-- A merged entry always carries status live, a positive price and the type
of the batch item it came from. -/
theorem merge_item_spec (sc : String → Option StaticData) (d : BatchItem)
    (q : InstrumentQuote) (h : merge_item sc d = some q) :
    q.status = "live" ∧ 0 < q.price ∧ q.ty = d.ty := by
  simp only [merge_item] at h
  by_cases hp : 0 < d.priceOpt.getD 0
  · rw [if_pos hp] at h
    injection h with h2
    subst h2
    exact ⟨rfl, hp, rfl⟩
  · rw [if_neg hp] at h
    exact absurd h (by simp)

/-- The batch loop body preserves the instrument's type key. -/
theorem process_etf_ty (fetch : Etf → Option NseData) (etf : Etf) :
    (process_etf fetch etf).ty = etf.ty := by
  unfold process_etf
  cases fetch etf
  · rfl
  · dsimp only
    split_ifs <;> rfl

/-- calculate_mcx_fields only sets the three spot-comparison fields; status,
price and type are unchanged. -/
theorem calculate_mcx_fields_preserve (e : InstrumentQuote) (g s : ℚ) :
    (calculate_mcx_fields e g s).status = e.status ∧
    (calculate_mcx_fields e g s).price = e.price ∧
    (calculate_mcx_fields e g s).ty = e.ty := by
  simp only [calculate_mcx_fields]
  split_ifs <;> exact ⟨rfl, rfl, rfl⟩

/-- Every instrument in every batch of the fixed universe has asset class
gold or silver. -/
theorem chunk_ty_cases :
    ∀ b ∈ chunkList5 ETF_LIST, ∀ x ∈ b, x.ty = "gold" ∨ x.ty = "silver" := by
  decide

/-- Every merged entry of a cycle is live with positive price, and of asset
class gold or silver. -/
theorem merged_results_spec (fetch : Etf → Option NseData)
    (driver_ok : List Etf → Bool) (sc : String → Option StaticData)
    (q : InstrumentQuote) (hq : q ∈ merged_results fetch driver_ok sc) :
    q.status = "live" ∧ 0 < q.price ∧ (q.ty = "gold" ∨ q.ty = "silver") := by
  unfold merged_results at hq
  rcases List.mem_filterMap.mp hq with ⟨d, hd, hmerge⟩
  obtain ⟨hstat, hprice, hty⟩ := merge_item_spec sc d q hmerge
  refine ⟨hstat, hprice, ?_⟩
  rw [hty]
  rcases List.mem_flatten.mp hd with ⟨res, hres, hdres⟩
  rcases List.mem_map.mp hres with ⟨b, hb, rfl⟩
  unfold scrape_etf_batch_parallel at hdres
  by_cases hdo : driver_ok b = true
  · rw [if_pos hdo] at hdres
    rcases List.mem_map.mp hdres with ⟨etf, hetf, rfl⟩
    rw [process_etf_ty]
    exact chunk_ty_cases b hb etf hetf
  · rw [if_neg hdo] at hdres
    exact absurd hdres (List.not_mem_nil d)

/-- When every element is gold or silver, the two filters partition the
list, so their lengths sum to the list's length. -/
theorem length_filter_gold_silver (l : List InstrumentQuote)
    (h : ∀ q ∈ l, q.ty = "gold" ∨ q.ty = "silver") :
    (l.filter (fun e => e.ty == "gold")).length +
      (l.filter (fun e => e.ty == "silver")).length = l.length := by
  induction l with
  | nil => simp
  | cons a t ih =>
    have ha := h a (List.mem_cons_self a t)
    have ih2 := ih (fun q hq => h q (List.mem_cons_of_mem a hq))
    have hgs : (("gold" : String) == "silver") = false := rfl
    have hsg : (("silver" : String) == "gold") = false := rfl
    rcases ha with ha | ha <;>
      simp only [List.filter_cons, ha, hgs, hsg, beq_self_eq_true, if_true, if_false,
        Bool.false_eq_true, List.length_cons] <;>
      omega

/-- C10: in every snapshot returned by scrape_all_etfs_parallel, each
emitted entry has status live and positive price, the gold and silver lists
partition the emitted entries by the type key, success_count equals the
number of emitted entries (gold plus silver), and total_count is the fixed
universe size 20. -/
theorem C10_snapshot_invariants (fetch : Etf → Option NseData)
    (driver_ok : List Etf → Bool) (sc : String → Option StaticData)
    (mcx_gold mcx_silver : ℚ) :
    (∀ q ∈ (scrape_all_etfs_parallel fetch driver_ok sc mcx_gold mcx_silver).gold_etfs ++
        (scrape_all_etfs_parallel fetch driver_ok sc mcx_gold mcx_silver).silver_etfs,
      q.status = "live" ∧ 0 < q.price) ∧
    (∀ q ∈ (scrape_all_etfs_parallel fetch driver_ok sc mcx_gold mcx_silver).gold_etfs,
      q.ty = "gold") ∧
    (∀ q ∈ (scrape_all_etfs_parallel fetch driver_ok sc mcx_gold mcx_silver).silver_etfs,
      q.ty = "silver") ∧
    (scrape_all_etfs_parallel fetch driver_ok sc mcx_gold mcx_silver).success_count =
      (scrape_all_etfs_parallel fetch driver_ok sc mcx_gold mcx_silver).gold_etfs.length +
        (scrape_all_etfs_parallel fetch driver_ok sc mcx_gold mcx_silver).silver_etfs.length ∧
    (scrape_all_etfs_parallel fetch driver_ok sc mcx_gold mcx_silver).total_count = 20 := by
  have hall2 : ∀ q ∈ (merged_results fetch driver_ok sc).map
      (fun e => calculate_mcx_fields e mcx_gold mcx_silver),
      q.status = "live" ∧ 0 < q.price ∧ (q.ty = "gold" ∨ q.ty = "silver") := by
    intro q hq
    rcases List.mem_map.mp hq with ⟨e, he, rfl⟩
    obtain ⟨h1, h2, h3⟩ := merged_results_spec fetch driver_ok sc e he
    obtain ⟨p1, p2, p3⟩ := calculate_mcx_fields_preserve e mcx_gold mcx_silver
    exact ⟨p1.trans h1, by rw [p2]; exact h2, by rw [p3]; exact h3⟩
  simp only [scrape_all_etfs_parallel]
  refine ⟨?_, ?_, ?_, ?_, ?_⟩
  · intro q hq
    rcases List.mem_append.mp hq with hq | hq <;>
      obtain ⟨hq2, -⟩ := List.mem_filter.mp hq <;>
      exact ⟨(hall2 q hq2).1, (hall2 q hq2).2.1⟩
  · intro q hq
    obtain ⟨-, hcond⟩ := List.mem_filter.mp hq
    exact beq_iff_eq.mp hcond
  · intro q hq
    obtain ⟨-, hcond⟩ := List.mem_filter.mp hq
    exact beq_iff_eq.mp hcond
  · rw [length_filter_gold_silver
      ((merged_results fetch driver_ok sc).map
        (fun e => calculate_mcx_fields e mcx_gold mcx_silver))
      (fun q hq => (hall2 q hq).2.2), List.length_map]
  · rfl

/-- C10, witness: the invariants instantiated at a concrete all-success
cycle; in particular its total_count is 20. -/
theorem C10_witness :
    (scrape_all_etfs_parallel fetchC10 (fun _ => true) (fun _ => none) 6200 74).total_count
      = 20 :=
  (C10_snapshot_invariants fetchC10 (fun _ => true) (fun _ => none) 6200 74).2.2.2.2

/-- C6, witness: the writes trace equation instantiated at the concrete
environment envC5. -/
theorem C6_witness :
    (get_mcx_spot_prices envC5).writes =
      (if (get_mcx_spot_prices envC5).fromCache then []
       else [(get_mcx_spot_prices envC5).result]) :=
  (C6_amended envC5).1
